import Mathlib

/-!
Shallow embedding of `scripts/fetch_all_votes.py`, a pipeline that fetches
parliamentary voting records, reconciles partially-populated fields and
produces one sorted JSON document.

Modelling conventions:
* XML element trees (`xml.etree.ElementTree`) are modelled by `XmlElem`:
  a tag (namespace-local name; every consumed element lives in the single
  shared namespace, so the namespace prefix is dropped), an optional text
  (`.text`, which is `None` for empty elements) and a child list.
* A network request either fails (transport error, non-2xx status, XML parse
  error — all raised and caught by the same broad handler) or yields a parsed
  root element; this is `Except Unit XmlElem`.
* Python dicts with a fixed key set are structures whose fields have type
  `Option (Option String)`: the outer `Option` is key presence, the inner
  one is the stored value, which can itself be Python `None` (element text of
  an empty XML element).
* Fallible Python expressions (`int(...)` raising `ValueError`,
  `None.lower()` raising `AttributeError`, reading a possibly-unbound local)
  are modelled in `Option` / `Except`: `none` / `.error` means the Python
  code raises at that point.
* `datetime.now()` is passed in explicitly: `currentYear` for the session
  range, `now` for the ISO timestamp used as last-resort vote time and as
  generation timestamp.
-/

/-- Python truthiness of a `str | None` value: `None` and `""` are falsy. -/
def pyTruthy : Option String → Bool
  | none => false
  | some s => !(s == "")

/-- Python `f"{x}"` applied to a `str | None` value: `None` renders as the
literal string `"None"`. -/
def pyStr : Option String → String
  | none => "None"
  | some s => s

/-- Python `d.get(key, default)` on a fixed-key dict entry: the stored value
(inner `Option`) if the key is present, else the default. -/
def dictGet (v : Option (Option String)) (d : Option String) : Option String :=
  match v with
  | some t => t
  | none => d

/-- Truthiness of `d.get(key)`: true iff the key is present and holds a
non-`None`, non-empty string. -/
def truthyEntry (v : Option (Option String)) : Bool :=
  pyTruthy (dictGet v none)

/-- Strip leading and trailing whitespace from a character list. -/
def trimChars (l : List Char) : List Char :=
  ((l.dropWhile Char.isWhitespace).reverse.dropWhile Char.isWhitespace).reverse

/-- Python `s.strip()`: remove surrounding whitespace. -/
def pyStrip (s : String) : String := ⟨trimChars s.data⟩

/-- Python `s.lower()` (ASCII case folding; every string the program compares
against is ASCII). -/
def pyLower (s : String) : String := ⟨s.data.map Char.toLower⟩

/-- Accumulate decimal digits left to right; any non-digit character makes the
whole conversion fail (Python `int` raises `ValueError`). -/
def digitsAux : Nat → List Char → Option Nat
  | n, [] => some n
  | n, c :: cs => if c.isDigit then digitsAux (n * 10 + (c.toNat - 48)) cs else none

/-- Value of a non-empty all-digit character list; `none` on the empty list or
on any non-digit. -/
def digitsVal : List Char → Option Nat
  | [] => none
  | l => digitsAux 0 l

/-- Python `int(s)` on a string: strip surrounding whitespace, then an optional
sign followed by at least one decimal digit; `none` models `ValueError`. -/
def pyInt (s : String) : Option Int :=
  match trimChars s.data with
  | '-' :: rest => (digitsVal rest).map (fun n => -(n : Int))
  | '+' :: rest => (digitsVal rest).map (fun n => (n : Int))
  | l => (digitsVal l).map (fun n => (n : Int))

/-- Lexicographic `≤` on character lists by code point, exactly Python's
string comparison. -/
def charListLe : List Char → List Char → Bool
  | [], _ => true
  | _ :: _, [] => false
  | a :: as, b :: bs =>
      if a.toNat = b.toNat then charListLe as bs
      else decide (a.toNat < b.toNat)

/-- Python string `<=` (code-point lexicographic). -/
def strLe (a b : String) : Bool := charListLe a.data b.data

mutual
/-- An XML element: local tag name, optional text content, ordered children.
`ElementTree` yields `text = None` for an empty element. -/
inductive XmlElem where
  | mk (tag : String) (text : Option String) (children : XmlList)
/-- Child list of an `XmlElem` (a separate inductive so that recursion over
the tree is structural). -/
inductive XmlList where
  | nil
  | cons (e : XmlElem) (es : XmlList)
end

def XmlElem.tag : XmlElem → String
  | .mk t _ _ => t

def XmlElem.text : XmlElem → Option String
  | .mk _ x _ => x

def XmlElem.children : XmlElem → XmlList
  | .mk _ _ c => c

/-- Build an `XmlList` from a `List XmlElem` (concrete-tree notation helper). -/
def xl : List XmlElem → XmlList
  | [] => .nil
  | e :: es => .cons e (xl es)

/-- An element with no children. -/
def leafElem (t : String) (x : Option String) : XmlElem := .mk t x .nil

/-- `element.find('ns:tag', ns)`: first direct child with the given tag. -/
def XmlList.findTag : XmlList → String → Option XmlElem
  | .nil, _ => none
  | .cons e es, t => if e.tag == t then some e else XmlList.findTag es t

/-- `element.find('ns:tag', ns)` on an element. -/
def findChild (e : XmlElem) (t : String) : Option XmlElem :=
  e.children.findTag t

mutual
/-- All proper descendants of an element, in document (pre-)order. -/
def descOf : XmlElem → List XmlElem
  | .mk _ _ c => descL c
/-- All elements of a child list together with their descendants, in document
order; `root.findall('.//ns:t', ns)` is this list filtered by tag `t`, and
`root.find('.//ns:t', ns)` is its first element with tag `t`. -/
def descL : XmlList → List XmlElem
  | .nil => []
  | .cons e es => e :: (descOf e ++ descL es)
end

/-- `fetch_all_sessions_since_2022`: session labels `"{y}-{y+1}"` for
`y in range(2022, current_year + 2)`. -/
def fetch_all_sessions_since_2022 (currentYear : Nat) : List String :=
  (List.range' 2022 (currentYear + 2 - 2022)).map
    (fun y => toString y ++ "-" ++ toString (y + 1))

/-- `fetch_saker_from_session`: on any request/parse error return `[]`;
otherwise collect, for every `sak` descendant, the text of its `id` child
whenever that child exists and its text is truthy. -/
def fetch_saker_from_session : Except Unit XmlElem → List String
  | .error _ => []
  | .ok root =>
      ((descL root.children).filter (fun e => e.tag == "sak")).filterMap
        (fun sak =>
          match findChild sak "id" with
          | some idElem =>
              match idElem.text with
              | some s => if s == "" then none else some s
              | none => none
          | none => none)

/-- The `vote_data` dict built by `fetch_voteringer_for_sak` for one
`sak_votering` element.  Outer `Option`: key present in the dict; inner
`Option`: the stored element text (which may be Python `None`). -/
structure VoteData where
  votering_tid : Option (Option String) := none
  votering_id : Option (Option String) := none
  antall_for : Option (Option String) := none
  antall_mot : Option (Option String) := none
  vedtatt : Option (Option String) := none
  votering_tema : Option (Option String) := none
  sak_id : Option (Option String) := none
deriving DecidableEq, Repr

/-- Parse one `sak_votering` element into a `vote_data` dict: first try the
timestamp nested inside `votering_resultat`, then the six plain fields, then
fall back to the top-level `votering_tid` element exactly when the
`votering_tid` key was not set by the nested lookup. -/
def parseVotering (votering : XmlElem) : VoteData :=
  let tidNested : Option (Option String) :=
    match findChild votering "votering_resultat" with
    | some resultat =>
        match findChild resultat "votering_dato_tid" with
        | some dato => some dato.text
        | none => none
    | none => none
  let fieldOf : String → Option (Option String) := fun f =>
    match findChild votering f with
    | some e => some e.text
    | none => none
  { votering_tid :=
      match tidNested with
      | some t => some t
      | none => fieldOf "votering_tid"
    votering_id := fieldOf "votering_id"
    antall_for := fieldOf "antall_for"
    antall_mot := fieldOf "antall_mot"
    vedtatt := fieldOf "vedtatt"
    votering_tema := fieldOf "votering_tema"
    sak_id := fieldOf "sak_id" }

/-- `fetch_voteringer_for_sak`: on any error return `[]`; otherwise parse
every `sak_votering` descendant and keep a record iff its `votering_id`
entry is truthy (the dict is then automatically non-empty). -/
def fetch_voteringer_for_sak : Except Unit XmlElem → List VoteData
  | .error _ => []
  | .ok root =>
      (((descL root.children).filter (fun e => e.tag == "sak_votering")).map
          parseVotering).filter
        (fun v => truthyEntry v.votering_id)

/-- One entry of the `stemmer` list built by `fetch_vote_details`: the
representative's display name (an f-string, so a `None` name part renders as
`"None"`), party id and outcome id (both may be Python `None`). -/
structure Stemme where
  navn : String
  parti : Option String
  stemme : Option String
deriving DecidableEq, Repr

/-- Result of `fetch_vote_details`. -/
structure DetailResult where
  stemmer : List Stemme
  dato_tid : Option String
deriving DecidableEq, Repr

/-- The loop body state of `fetch_vote_details`: the Python locals
`fornavn`, `etternavn`, `parti_id`, which are only (re)assigned when the
current ballot has a `representant` child.  `none` means the locals are still
unbound, so reading them raises `NameError` — modelled as `.error`. -/
def stemmerLoop :
    Option (Option String × Option String × Option String) → List XmlElem →
      Except Unit (List Stemme)
  | _, [] => .ok []
  | st, el :: rest =>
      let st' := match findChild el "representant" with
        | some rep =>
            some
              ((match findChild rep "fornavn" with
                | some e => e.text
                | none => some ""),
               (match findChild rep "etternavn" with
                | some e => e.text
                | none => some ""),
               (match findChild rep "parti" with
                | some parti =>
                    match findChild parti "id" with
                    | some idElem => idElem.text
                    | none => some ""
                | none => some ""))
        | none => st
      match st' with
      | none => .error ()
      | some (fornavn, etternavn, parti_id) =>
          let stemme_resultat : Option String :=
            match findChild el "votering_resultat" with
            | some se =>
                match findChild se "id" with
                | some r => r.text
                | none => some ""
            | none => some ""
          match stemmerLoop st' rest with
          | .ok tail =>
              .ok ({ navn := pyStrip (pyStr fornavn ++ " " ++ pyStr etternavn)
                     parti := parti_id
                     stemme := stemme_resultat } :: tail)
          | .error u => .error u

/-- `fetch_vote_details`: on any error — including an exception raised inside
the ballot loop — return an empty ballot list and a null timestamp; otherwise
the text of the first `votering_dato_tid` descendant (null if none) and the
parsed ballots of all `representant_votering` descendants. -/
def fetch_vote_details : Except Unit XmlElem → DetailResult
  | .error _ => { stemmer := [], dato_tid := none }
  | .ok root =>
      let dato_tid : Option String :=
        match (descL root.children).find? (fun e => e.tag == "votering_dato_tid") with
        | some e => e.text
        | none => none
      match stemmerLoop none
          ((descL root.children).filter (fun e => e.tag == "representant_votering")) with
      | .ok stemmer => { stemmer := stemmer, dato_tid := dato_tid }
      | .error _ => { stemmer := [], dato_tid := none }

/-- `fetch_sak_details`: on any error `none`; otherwise prefer the first
`korttittel` descendant's text when present and truthy, else the first
`tittel` descendant's text (possibly null), else `None`. -/
def fetch_sak_details : Except Unit XmlElem → Option String
  | .error _ => none
  | .ok root =>
      let tittel_elem := (descL root.children).find? (fun e => e.tag == "tittel")
      let korttittel_elem := (descL root.children).find? (fun e => e.tag == "korttittel")
      let t1 : Option String :=
        match korttittel_elem with
        | some e =>
            match e.text with
            | some s => if s == "" then none else some s
            | none => none
        | none => none
      match t1 with
      | some s => some s
      | none =>
          match tittel_elem with
          | some e => e.text
          | none => none

/-- A normalized vote record (`vote_obj` in `fetch_all_votes`).  `forCount`
and `motCount` are the JSON keys `"for"` and `"mot"`; `id`, `tema` and
`sak_id` come from dict lookups and can be Python `None`. -/
structure VoteObj where
  id : Option String
  tema : Option String
  sakstittel : Option String
  forCount : Int
  motCount : Int
  vedtatt : Bool
  sak_id : Option String
  tid : String
  stemmer : List Stemme
deriving DecidableEq, Repr

/-- The count expression
`int(vote.get(f, 0)) if vote.get(f) not in [None, '-1'] else 0`:
`0` when the entry is absent, stored as `None`, or the sentinel `"-1"`;
otherwise Python `int` of the stored string (`none` models the uncaught
`ValueError` on a non-numeral). -/
def parseCount (v : Option (Option String)) : Option Int :=
  match dictGet v none with
  | none => some 0
  | some s => if s == "-1" then some 0 else pyInt s

/-- The decided flag `vote.get('vedtatt', '').lower() == 'true'`: `none`
models the uncaught `AttributeError` of `None.lower()` when the entry is
present but stores `None` (an empty `<vedtatt/>` element). -/
def parseVedtatt (v : Option (Option String)) : Option Bool :=
  match dictGet v (some "") with
  | none => none
  | some s => some (pyLower s == "true")

/-- Build one `vote_obj` from a coarse record, the resolved case title, the
detail-fetch result and the current wall-clock ISO string.  `none` models an
uncaught exception while building the dict literal. -/
def makeVoteObj (vote : VoteData) (sakstittel : Option String)
    (detaljer : DetailResult) (now : String) : Option VoteObj :=
  let votering_id := dictGet vote.votering_id (some "")
  let riktig_dato := detaljer.dato_tid
  let votering_tid :=
    if pyTruthy riktig_dato then riktig_dato else dictGet vote.votering_tid (some "")
  do
    let f ← parseCount vote.antall_for
    let m ← parseCount vote.antall_mot
    let v ← parseVedtatt vote.vedtatt
    pure {
      id := votering_id
      tema := dictGet vote.votering_tema (some "Ukjent")
      sakstittel := sakstittel
      forCount := f
      motCount := m
      vedtatt := v
      sak_id := dictGet vote.sak_id (some "")
      tid := if pyTruthy votering_tid then votering_tid.getD "" else now
      stemmer := detaljer.stemmer }

/-- The upstream service: one response per endpoint and query key.  The `sak`
and `votering` endpoints are keyed by a possibly-`None` id (the Python code
interpolates whatever `vote.get(...)` returned into the URL). -/
structure Env where
  sakerResp : String → Except Unit XmlElem
  voteringerResp : String → Except Unit XmlElem
  sakResp : Option String → Except Unit XmlElem
  voteringResp : Option String → Except Unit XmlElem

/-- The per-vote body of the `fetch_all_votes` loop: resolve the case title,
fetch details, build the record. -/
def processVote (env : Env) (now : String) (vote : VoteData) : Option VoteObj :=
  let sakstittel := fetch_sak_details (env.sakResp (dictGet vote.sak_id (some "")))
  let votering_id := dictGet vote.votering_id (some "")
  let detaljer := fetch_vote_details (env.voteringResp votering_id)
  makeVoteObj vote sakstittel detaljer now

/-- Sequential effectful map in `Option`: `none` as soon as one element
fails, mirroring an uncaught exception aborting the enclosing loop. -/
def omapM (f : α → Option β) : List α → Option (List β)
  | [] => some []
  | a :: as =>
      match f a, omapM f as with
      | some b, some bs => some (b :: bs)
      | _, _ => none

/-- All records of one case, in listing order. -/
def processSak (env : Env) (now : String) (sak_id : String) : Option (List VoteObj) :=
  omapM (processVote env now) (fetch_voteringer_for_sak (env.voteringerResp sak_id))

/-- All records of one session: cases in listing order, records concatenated. -/
def processSession (env : Env) (now : String) (sesjon : String) : Option (List VoteObj) :=
  (omapM (processSak env now) (fetch_saker_from_session (env.sakerResp sesjon))).map
    List.join

/-- Insert into a timestamp-descending list: skip the existing records with
strictly greater timestamp, land before the first one whose timestamp is
`≤` ours (so before existing equal timestamps). -/
def insOrd (a : VoteObj) : List VoteObj → List VoteObj
  | [] => [a]
  | b :: bs => if strLe b.tid a.tid then a :: b :: bs else b :: insOrd a bs

/-- `all_votes.sort(key=lambda x: x['tid'], reverse=True)`.  Python's sort is
stable, and a stable descending sort is extensionally unique: its output is
the one permutation that is timestamp-descending with records of equal
timestamp kept in original order.  `sortVotes` is the insertion sort with
exactly that specification. -/
def sortVotes : List VoteObj → List VoteObj
  | [] => []
  | a :: as => insOrd a (sortVotes as)

/-- `fetch_all_votes`: sessions in chronological order, each session's cases,
each case's kept coarse records, one `vote_obj` appended per record (`none` =
an uncaught exception aborted the run), finally the stable descending sort. -/
def fetch_all_votes (env : Env) (currentYear : Nat) (now : String) :
    Option (List VoteObj) :=
  (omapM (processSession env now) (fetch_all_sessions_since_2022 currentYear)).map
    (fun l => sortVotes l.join)

/-- The persisted JSON document of `save_to_json`. -/
structure JsonDoc where
  siste_oppdatering : String
  antall_voteringer : Nat
  voteringer : List VoteObj
deriving DecidableEq, Repr

/-- `save_to_json`: generation timestamp, record count, records. -/
def save_to_json (votes : List VoteObj) (now : String) : JsonDoc :=
  { siste_oppdatering := now
    antall_voteringer := votes.length
    voteringer := votes }

/-- `main`: run the pipeline; persist only when the record list is truthy
(non-empty), otherwise just warn.  Outer `none` = the run died on an uncaught
exception; inner `none` = the run completed without invoking the persister.
Either way the process exits without a distinct exit code. -/
def mainRun (env : Env) (currentYear : Nat) (now : String) : Option (Option JsonDoc) :=
  (fetch_all_votes env currentYear now).map
    (fun votes => if votes.isEmpty then none else some (save_to_json votes now))

/-- Spec-side timestamp rule (written from the specification's words, for
comparison with the code): the authoritative detail timestamp when the detail
fetch returned a non-null one, else the record's own nominal timestamp when
present and non-empty, else the current wall-clock time. -/
def specTimestamp (vote : VoteData) (detaljer : DetailResult) (now : String) : String :=
  match detaljer.dato_tid with
  | some s => s
  | none =>
      match dictGet vote.votering_tid (some "") with
      | some s => if s = "" then now else s
      | none => now

/-! Concrete upstream datasets used by witnesses and counterexamples. -/

/-- A `saker` response with a single case `"s1"`. -/
def sakerOneRoot : XmlElem :=
  .mk "saker_oversikt" none (xl [.mk "sak" none (xl [leafElem "id" (some "s1")])])

/-- A `sak_votering` element whose `antall_for` is the negative numeral
`"-5"` (not the `"-1"` sentinel). -/
def voteringNegXml : XmlElem :=
  .mk "sak_votering" none (xl
    [ leafElem "votering_id" (some "v1")
    , leafElem "antall_for" (some "-5")
    , leafElem "antall_mot" (some "12")
    , leafElem "vedtatt" (some "true")
    , leafElem "votering_tid" (some "2024-05-01T10:00:00")
    , leafElem "sak_id" (some "s1") ])

def voteringerNegRoot : XmlElem := .mk "voteringer_oversikt" none (xl [voteringNegXml])

/-- An environment whose case/detail endpoints fail and whose listing serves
`voteringNegXml`. -/
def envNeg : Env :=
  { sakerResp := fun _ => .ok sakerOneRoot
    voteringerResp := fun _ => .ok voteringerNegRoot
    sakResp := fun _ => .error ()
    voteringResp := fun _ => .error () }

/-- A `sak_votering` whose `antall_for` text is the non-numeral `"abc"`. -/
def voteringAbcXml : XmlElem :=
  .mk "sak_votering" none (xl
    [ leafElem "votering_id" (some "v1")
    , leafElem "antall_for" (some "abc")
    , leafElem "antall_mot" (some "12")
    , leafElem "vedtatt" (some "true")
    , leafElem "votering_tid" (some "2024-05-01T10:00:00")
    , leafElem "sak_id" (some "s1") ])

def envAbc : Env :=
  { sakerResp := fun _ => .ok sakerOneRoot
    voteringerResp := fun _ => .ok (.mk "voteringer_oversikt" none (xl [voteringAbcXml]))
    sakResp := fun _ => .error ()
    voteringResp := fun _ => .error () }

/-- A `sak_votering` with a vote id but no timestamp anywhere. -/
def voteringNoTidXml : XmlElem :=
  .mk "sak_votering" none (xl
    [ leafElem "votering_id" (some "v1")
    , leafElem "antall_for" (some "10")
    , leafElem "antall_mot" (some "3")
    , leafElem "vedtatt" (some "false")
    , leafElem "sak_id" (some "s1") ])

/-- Environment with one vote whose timestamp resolves from no source (its
detail fetch fails as well). -/
def envNoTid : Env :=
  { sakerResp := fun _ => .ok sakerOneRoot
    voteringerResp := fun _ => .ok (.mk "voteringer_oversikt" none (xl [voteringNoTidXml]))
    sakResp := fun _ => .error ()
    voteringResp := fun _ => .error () }

/-- Two votes with the same nominal timestamp, `"v1"` discovered first. -/
def voteringTieXml (vid : String) : XmlElem :=
  .mk "sak_votering" none (xl
    [ leafElem "votering_id" (some vid)
    , leafElem "antall_for" (some "10")
    , leafElem "antall_mot" (some "3")
    , leafElem "vedtatt" (some "true")
    , leafElem "votering_tid" (some "2024-05-01T10:00:00")
    , leafElem "sak_id" (some "s1") ])

def envTie : Env :=
  { sakerResp := fun _ => .ok sakerOneRoot
    voteringerResp := fun _ =>
      .ok (.mk "voteringer_oversikt" none (xl [voteringTieXml "v1", voteringTieXml "v2"]))
    sakResp := fun _ => .error ()
    voteringResp := fun _ => .error () }

/-- Environment where every endpoint fails: the run finds zero records. -/
def envEmpty : Env :=
  { sakerResp := fun _ => .error ()
    voteringerResp := fun _ => .error ()
    sakResp := fun _ => .error ()
    voteringResp := fun _ => .error () }

/-- A vote-detail response whose first ballot element has no `representant`
child (but does carry an outcome), alongside an authoritative timestamp. -/
def detailBadRoot : XmlElem :=
  .mk "votering_oversikt" none (xl
    [ leafElem "votering_dato_tid" (some "2024-05-01T10:00:00")
    , .mk "representant_votering" none (xl
        [ .mk "votering_resultat" none (xl [leafElem "id" (some "for")]) ]) ])

/-- A coarse record whose `vedtatt` entry stores Python `None` (empty
`<vedtatt/>` element), with every other field well-formed. -/
def vdVedtattNull : VoteData :=
  { votering_id := some (some "v1")
    vedtatt := some none
    votering_tid := some (some "2024-05-01T10:00:00") }

/-- A minimal coarse record: only the vote id is present. -/
def vdOnlyId : VoteData := { votering_id := some (some "v1") }

/-- A coarse record whose `vedtatt` text is `"TRUE"`. -/
def vdUpperTrue : VoteData :=
  { votering_id := some (some "v1")
    vedtatt := some (some "TRUE")
    votering_tid := some (some "2024-05-01T10:00:00") }

/-- Empty detail result (a failed detail fetch). -/
def noDetail : DetailResult := { stemmer := [], dato_tid := none }

/-- Records ordered timestamp-descending: `tidGe A B` says `A.tid ≥ B.tid`
under Python's lexicographic string comparison. -/
def tidGe (x y : VoteObj) : Prop := strLe y.tid x.tid = true

/-- The count source is benign: every present, non-sentinel string that
Python `int` accepts denotes a non-negative value. -/
def nonNegCountSrc (v : Option (Option String)) : Prop :=
  ∀ s k, v = some (some s) → s ≠ "-1" → pyInt s = some k → 0 ≤ k

/-- Every kept coarse record of the run has parseable counts and a
non-null decided value (so no record construction raises). -/
@[reducible] def RecordsParse (env : Env) (year : Nat) : Prop :=
  ∀ s ∈ fetch_all_sessions_since_2022 year,
    ∀ sk ∈ fetch_saker_from_session (env.sakerResp s),
      ∀ v ∈ fetch_voteringer_for_sak (env.voteringerResp sk),
        (parseCount v.antall_for).isSome ∧ (parseCount v.antall_mot).isSome ∧
          (parseVedtatt v.vedtatt).isSome

/-- Every kept coarse record of the run resolves its timestamp from the
detail fetch or from its own nominal field, so the wall-clock fallback is
never taken. -/
@[reducible] def NoClockFallback (env : Env) (year : Nat) : Prop :=
  ∀ s ∈ fetch_all_sessions_since_2022 year,
    ∀ sk ∈ fetch_saker_from_session (env.sakerResp s),
      ∀ v ∈ fetch_voteringer_for_sak (env.voteringerResp sk),
        pyTruthy (fetch_vote_details
            (env.voteringResp (dictGet v.votering_id (some "")))).dato_tid = true
        ∨ pyTruthy (dictGet v.votering_tid (some "")) = true

/-! Further concrete fixtures. -/

/-- The record `makeVoteObj` builds from `vdOnlyId` with empty detail. -/
def objOnlyId : VoteObj :=
  { id := some "v1", tema := some "Ukjent", sakstittel := none, forCount := 0,
    motCount := 0, vedtatt := false, sak_id := some "", tid := "NOW", stemmer := [] }

/-- The record `makeVoteObj` builds from `vdUpperTrue` with empty detail. -/
def objUpperTrue : VoteObj :=
  { id := some "v1", tema := some "Ukjent", sakstittel := none, forCount := 0,
    motCount := 0, vedtatt := true, sak_id := some "",
    tid := "2024-05-01T10:00:00", stemmer := [] }

/-- The record produced for `voteringNoTidXml` when the wall clock reads
`now`. -/
def objNoTid (now : String) : VoteObj :=
  { id := some "v1", tema := some "Ukjent", sakstittel := none, forCount := 10,
    motCount := 3, vedtatt := false, sak_id := some "s1", tid := now, stemmer := [] }

/-- An April vote (discovered first) and a May vote (discovered second). -/
def voteringAprilXml : XmlElem :=
  .mk "sak_votering" none (xl
    [ leafElem "votering_id" (some "vApr")
    , leafElem "antall_for" (some "10")
    , leafElem "antall_mot" (some "3")
    , leafElem "vedtatt" (some "true")
    , leafElem "votering_tid" (some "2024-04-01T09:00:00")
    , leafElem "sak_id" (some "s1") ])

def voteringMayXml : XmlElem :=
  .mk "sak_votering" none (xl
    [ leafElem "votering_id" (some "vMay")
    , leafElem "antall_for" (some "7")
    , leafElem "antall_mot" (some "2")
    , leafElem "vedtatt" (some "true")
    , leafElem "votering_tid" (some "2024-05-01T10:00:00")
    , leafElem "sak_id" (some "s1") ])

def envSort : Env :=
  { sakerResp := fun _ => .ok sakerOneRoot
    voteringerResp := fun _ =>
      .ok (.mk "voteringer_oversikt" none (xl [voteringAprilXml, voteringMayXml]))
    sakResp := fun _ => .error ()
    voteringResp := fun _ => .error () }

def objApril : VoteObj :=
  { id := some "vApr", tema := some "Ukjent", sakstittel := none, forCount := 10,
    motCount := 3, vedtatt := true, sak_id := some "s1",
    tid := "2024-04-01T09:00:00", stemmer := [] }

def objMay : VoteObj :=
  { id := some "vMay", tema := some "Ukjent", sakstittel := none, forCount := 7,
    motCount := 2, vedtatt := true, sak_id := some "s1",
    tid := "2024-05-01T10:00:00", stemmer := [] }

/-- A `sak_votering` carrying both the nested result timestamp and a
conflicting top-level one. -/
def voteringNestedXml : XmlElem :=
  .mk "sak_votering" none (xl
    [ .mk "votering_resultat" none
        (xl [leafElem "votering_dato_tid" (some "2024-03-03T12:00:00")])
    , leafElem "votering_id" (some "v9")
    , leafElem "votering_tid" (some "2099-01-01T00:00:00") ])

/-! Order facts about the code-point comparison. -/

theorem charListLe_refl : ∀ l : List Char, charListLe l l = true
  | [] => rfl
  | a :: as => by simp [charListLe, charListLe_refl as]

theorem charListLe_total : ∀ as bs : List Char,
    charListLe as bs = true ∨ charListLe bs as = true
  | [], _ => Or.inl rfl
  | _ :: _, [] => Or.inr rfl
  | a :: as, b :: bs => by
      by_cases h : a.toNat = b.toNat
      · have h' : b.toNat = a.toNat := h.symm
        rcases charListLe_total as bs with ih | ih
        · exact Or.inl (by simp [charListLe, h, ih])
        · exact Or.inr (by simp [charListLe, h', ih])
      · have h' : ¬ b.toNat = a.toNat := fun e => h e.symm
        rcases Nat.lt_or_ge a.toNat b.toNat with hlt | hge
        · exact Or.inl (by simp [charListLe, h, hlt])
        · have hgt : b.toNat < a.toNat := lt_of_le_of_ne hge h'
          exact Or.inr (by simp [charListLe, h', hgt])

theorem strLe_refl (a : String) : strLe a a = true := charListLe_refl a.data

theorem strLe_total (a b : String) : strLe a b = true ∨ strLe b a = true :=
  charListLe_total a.data b.data

theorem strLe_of_not_strLe {a b : String} (h : ¬ strLe a b = true) : strLe b a = true :=
  (strLe_total a b).resolve_left h

/-! The stable descending insertion sort. -/

theorem mem_insOrd (x a : VoteObj) : ∀ l : List VoteObj,
    x ∈ insOrd a l ↔ x = a ∨ x ∈ l
  | [] => by simp [insOrd]
  | b :: bs => by
      rw [insOrd]
      by_cases hc : strLe b.tid a.tid = true
      · simp [hc]
      · simp [hc, mem_insOrd x a bs]
        tauto

theorem insOrd_perm (a : VoteObj) : ∀ l : List VoteObj, List.Perm (insOrd a l) (a :: l)
  | [] => List.Perm.refl [a]
  | b :: bs => by
      rw [insOrd]
      by_cases hc : strLe b.tid a.tid = true
      · rw [if_pos hc]
      · rw [if_neg hc]
        exact ((insOrd_perm a bs).cons b).trans (List.Perm.swap a b bs)

theorem sortVotes_perm : ∀ l : List VoteObj, List.Perm (sortVotes l) l
  | [] => List.Perm.refl []
  | a :: as => by
      rw [sortVotes]
      exact (insOrd_perm a (sortVotes as)).trans ((sortVotes_perm as).cons a)

theorem chain'_insOrd (a : VoteObj) : ∀ l : List VoteObj,
    List.Chain' tidGe l → List.Chain' tidGe (insOrd a l)
  | [], _ => List.chain'_singleton a
  | b :: bs, h => by
      rw [insOrd]
      by_cases hc : strLe b.tid a.tid = true
      · rw [if_pos hc]
        exact List.chain'_cons.mpr ⟨hc, h⟩
      · rw [if_neg hc]
        have hba : tidGe b a := strLe_of_not_strLe hc
        have h1 : List.Chain' tidGe bs := h.tail
        refine List.chain'_cons'.mpr ⟨?_, chain'_insOrd a bs h1⟩
        intro y hy
        cases bs with
        | nil =>
            simp [insOrd] at hy
            exact hy ▸ hba
        | cons c cs =>
            rw [insOrd] at hy
            by_cases hc2 : strLe c.tid a.tid = true
            · rw [if_pos hc2] at hy
              simp at hy
              exact hy ▸ hba
            · rw [if_neg hc2] at hy
              simp at hy
              exact hy ▸ (List.chain'_cons.mp h).1

theorem sortVotes_chain' : ∀ l : List VoteObj, List.Chain' tidGe (sortVotes l)
  | [] => List.chain'_nil
  | a :: as => by
      rw [sortVotes]
      exact chain'_insOrd a (sortVotes as) (sortVotes_chain' as)

theorem filter_insOrd_ne (t : String) (a : VoteObj) (h : (a.tid == t) = false) :
    ∀ l : List VoteObj,
      (insOrd a l).filter (fun x => x.tid == t) = l.filter (fun x => x.tid == t)
  | [] => by simp [insOrd, h]
  | b :: bs => by
      rw [insOrd]
      by_cases hc : strLe b.tid a.tid = true
      · rw [if_pos hc]
        simp [List.filter_cons, h]
      · rw [if_neg hc]
        simp only [List.filter_cons]
        rw [filter_insOrd_ne t a h bs]

theorem filter_insOrd_eq (t : String) (a : VoteObj) (h : a.tid = t) :
    ∀ l : List VoteObj,
      (insOrd a l).filter (fun x => x.tid == t) = a :: l.filter (fun x => x.tid == t)
  | [] => by simp [insOrd, h]
  | b :: bs => by
      rw [insOrd]
      by_cases hc : strLe b.tid a.tid = true
      · rw [if_pos hc]
        simp [List.filter_cons, h]
      · rw [if_neg hc]
        have hbt : (b.tid == t) = false := by
          refine beq_eq_false_iff_ne.mpr (fun e => hc ?_)
          rw [e, ← h]
          exact strLe_refl a.tid
        simp [List.filter_cons, hbt, filter_insOrd_eq t a h bs]

theorem sortVotes_filter (t : String) : ∀ l : List VoteObj,
    (sortVotes l).filter (fun x => x.tid == t) = l.filter (fun x => x.tid == t)
  | [] => rfl
  | a :: as => by
      rw [sortVotes]
      by_cases h : a.tid = t
      · rw [filter_insOrd_eq t a h (sortVotes as), sortVotes_filter t as]
        simp [List.filter_cons, h]
      · have h' : (a.tid == t) = false := beq_eq_false_iff_ne.mpr h
        rw [filter_insOrd_ne t a h' (sortVotes as), sortVotes_filter t as]
        simp [List.filter_cons, h']

/-! Facts about the sequential `Option` loop. -/

theorem omapM_mem {f : α → Option β} :
    ∀ {l : List α} {out : List β}, omapM f l = some out →
      ∀ a ∈ l, ∃ b ∈ out, f a = some b := by
  intro l
  induction l with
  | nil => intro out h a ha; cases ha
  | cons x xs ih =>
      intro out h a ha
      rw [omapM] at h
      cases hfx : f x with
      | none => rw [hfx] at h; cases h
      | some b0 =>
          cases hrest : omapM f xs with
          | none => rw [hfx, hrest] at h; cases h
          | some bs =>
              rw [hfx, hrest] at h
              cases h
              rcases List.mem_cons.mp ha with rfl | ha'
              · exact ⟨b0, List.mem_cons_self b0 bs, hfx⟩
              · rcases ih hrest a ha' with ⟨b, hb, hfb⟩
                exact ⟨b, List.mem_cons_of_mem b0 hb, hfb⟩

theorem omapM_mem_rev {f : α → Option β} :
    ∀ {l : List α} {out : List β}, omapM f l = some out →
      ∀ b ∈ out, ∃ a ∈ l, f a = some b := by
  intro l
  induction l with
  | nil =>
      intro out h b hb
      rw [omapM] at h
      cases h
      cases hb
  | cons x xs ih =>
      intro out h b hb
      rw [omapM] at h
      cases hfx : f x with
      | none => rw [hfx] at h; cases h
      | some b0 =>
          cases hrest : omapM f xs with
          | none => rw [hfx, hrest] at h; cases h
          | some bs =>
              rw [hfx, hrest] at h
              cases h
              rcases List.mem_cons.mp hb with rfl | hb'
              · exact ⟨x, List.mem_cons_self x xs, hfx⟩
              · rcases ih hrest b hb' with ⟨a, ha, hfa⟩
                exact ⟨a, List.mem_cons_of_mem x ha, hfa⟩

theorem omapM_congr {f g : α → Option β} :
    ∀ {l : List α}, (∀ a ∈ l, f a = g a) → omapM f l = omapM g l := by
  intro l
  induction l with
  | nil => intro _; rfl
  | cons x xs ih =>
      intro h
      rw [omapM, omapM, h x (List.mem_cons_self x xs),
        ih (fun a ha => h a (List.mem_cons_of_mem x ha))]

theorem omapM_isSome {f : α → Option β} :
    ∀ {l : List α}, (∀ a ∈ l, (f a).isSome) → (omapM f l).isSome := by
  intro l
  induction l with
  | nil => intro _; rfl
  | cons x xs ih =>
      intro h
      rw [omapM]
      cases hfx : f x with
      | none => exact absurd (h x (List.mem_cons_self x xs)) (by simp [hfx])
      | some b0 =>
          have := ih (fun a ha => h a (List.mem_cons_of_mem x ha))
          cases hrest : omapM f xs with
          | none => rw [hrest] at this; cases this
          | some bs => rfl

/-! Inversion of the record constructor and truthiness. -/

theorem pyTruthy_elim {o : Option String} (h : pyTruthy o = true) :
    ∃ s, o = some s ∧ s ≠ "" := by
  cases o with
  | none => cases h
  | some s =>
      refine ⟨s, rfl, ?_⟩
      simpa [pyTruthy] using h

theorem truthyEntry_elim {v : Option (Option String)} (h : truthyEntry v = true) :
    ∃ s, v = some (some s) ∧ s ≠ "" := by
  cases v with
  | none => cases h
  | some t =>
      rcases pyTruthy_elim (by simpa [truthyEntry, dictGet] using h) with ⟨s, rfl, hs⟩
      exact ⟨s, rfl, hs⟩

theorem makeVoteObj_inv {vote : VoteData} {tit : Option String} {det : DetailResult}
    {now : String} {obj : VoteObj} (h : makeVoteObj vote tit det now = some obj) :
    ∃ f m v, parseCount vote.antall_for = some f ∧ parseCount vote.antall_mot = some m ∧
      parseVedtatt vote.vedtatt = some v ∧
      obj = { id := dictGet vote.votering_id (some "")
              tema := dictGet vote.votering_tema (some "Ukjent")
              sakstittel := tit
              forCount := f
              motCount := m
              vedtatt := v
              sak_id := dictGet vote.sak_id (some "")
              tid :=
                (fun votering_tid =>
                  if pyTruthy votering_tid then votering_tid.getD "" else now)
                (if pyTruthy det.dato_tid then det.dato_tid
                 else dictGet vote.votering_tid (some ""))
              stemmer := det.stemmer } := by
  rw [makeVoteObj] at h
  cases hf : parseCount vote.antall_for with
  | none => rw [hf] at h; cases h
  | some f =>
      cases hm : parseCount vote.antall_mot with
      | none => rw [hf, hm] at h; cases h
      | some m =>
          cases hv : parseVedtatt vote.vedtatt with
          | none => rw [hf, hm, hv] at h; cases h
          | some v =>
              rw [hf, hm, hv] at h
              cases h
              exact ⟨f, m, v, rfl, rfl, rfl, rfl⟩

/-! Pipeline plumbing. -/

theorem fetch_all_votes_inv {env : Env} {year : Nat} {now : String} {out : List VoteObj}
    (h : fetch_all_votes env year now = some out) :
    ∃ L, omapM (processSession env now) (fetch_all_sessions_since_2022 year) = some L ∧
      out = sortVotes L.join := by
  rw [fetch_all_votes] at h
  cases hL : omapM (processSession env now) (fetch_all_sessions_since_2022 year) with
  | none => rw [hL] at h; cases h
  | some L =>
      rw [hL] at h
      cases h
      exact ⟨L, rfl, rfl⟩

theorem processSession_inv {env : Env} {now sesjon : String} {ls : List VoteObj}
    (h : processSession env now sesjon = some ls) :
    ∃ L2, omapM (processSak env now) (fetch_saker_from_session (env.sakerResp sesjon)) = some L2 ∧
      ls = L2.join := by
  rw [processSession] at h
  cases hL : omapM (processSak env now) (fetch_saker_from_session (env.sakerResp sesjon)) with
  | none => rw [hL] at h; cases h
  | some L2 =>
      rw [hL] at h
      cases h
      exact ⟨L2, rfl, rfl⟩

theorem pipeline_mem {env : Env} {year : Nat} {now : String} {out : List VoteObj}
    (h : fetch_all_votes env year now = some out) :
    ∀ s ∈ fetch_all_sessions_since_2022 year,
      ∀ sk ∈ fetch_saker_from_session (env.sakerResp s),
        ∀ v ∈ fetch_voteringer_for_sak (env.voteringerResp sk),
          ∃ obj ∈ out, processVote env now v = some obj := by
  intro s hs sk hsk v hv
  rcases fetch_all_votes_inv h with ⟨L, hL, rfl⟩
  rcases omapM_mem hL s hs with ⟨ls, hls, hsess⟩
  rcases processSession_inv hsess with ⟨L2, hL2, rfl⟩
  rcases omapM_mem hL2 sk hsk with ⟨l2, hl2, hsak⟩
  rw [processSak] at hsak
  rcases omapM_mem hsak v hv with ⟨obj, hobj, hpv⟩
  refine ⟨obj, ?_, hpv⟩
  have h1 : obj ∈ L2.join := List.mem_join.mpr ⟨l2, hl2, hobj⟩
  have h2 : obj ∈ L.join := List.mem_join.mpr ⟨L2.join, hls, h1⟩
  exact ((sortVotes_perm L.join).mem_iff).mpr h2

theorem pipeline_mem_rev {env : Env} {year : Nat} {now : String} {out : List VoteObj}
    (h : fetch_all_votes env year now = some out) :
    ∀ obj ∈ out,
      ∃ s ∈ fetch_all_sessions_since_2022 year,
        ∃ sk ∈ fetch_saker_from_session (env.sakerResp s),
          ∃ v ∈ fetch_voteringer_for_sak (env.voteringerResp sk),
            processVote env now v = some obj := by
  intro obj hobj
  rcases fetch_all_votes_inv h with ⟨L, hL, rfl⟩
  have h2 : obj ∈ L.join := ((sortVotes_perm L.join).mem_iff).mp hobj
  rcases List.mem_join.mp h2 with ⟨ls, hls, hobj2⟩
  rcases omapM_mem_rev hL ls hls with ⟨s, hs, hsess⟩
  rcases processSession_inv hsess with ⟨L2, hL2, hjoin⟩
  subst hjoin
  rcases List.mem_join.mp hobj2 with ⟨l2, hl2, hobj3⟩
  rcases omapM_mem_rev hL2 l2 hl2 with ⟨sk, hsk, hsak⟩
  rw [processSak] at hsak
  rcases omapM_mem_rev hsak obj hobj3 with ⟨v, hv, hpv⟩
  exact ⟨s, hs, sk, hsk, v, hv, hpv⟩

theorem makeVoteObj_isSome {vote : VoteData} {tit : Option String} {det : DetailResult}
    {now : String} (hf : (parseCount vote.antall_for).isSome)
    (hm : (parseCount vote.antall_mot).isSome) (hv : (parseVedtatt vote.vedtatt).isSome) :
    (makeVoteObj vote tit det now).isSome := by
  rw [makeVoteObj]
  rcases Option.isSome_iff_exists.mp hf with ⟨f, hf'⟩
  rcases Option.isSome_iff_exists.mp hm with ⟨m, hm'⟩
  rcases Option.isSome_iff_exists.mp hv with ⟨v, hv'⟩
  rw [hf', hm', hv']
  rfl

theorem makeVoteObj_now_indep {vote : VoteData} {tit : Option String} {det : DetailResult}
    {now1 now2 : String}
    (h : pyTruthy det.dato_tid = true ∨ pyTruthy (dictGet vote.votering_tid (some "")) = true) :
    makeVoteObj vote tit det now1 = makeVoteObj vote tit det now2 := by
  have ht : pyTruthy
      (if pyTruthy det.dato_tid then det.dato_tid
       else dictGet vote.votering_tid (some "")) = true := by
    rcases h with h | h
    · rw [if_pos h]; exact h
    · by_cases hd : pyTruthy det.dato_tid = true
      · rw [if_pos hd]; exact hd
      · rw [if_neg hd]; exact h
  rw [makeVoteObj, makeVoteObj, if_pos ht, if_pos ht]

/-! Count parsing facts. -/

theorem parseCount_zero {v : Option (Option String)}
    (h : dictGet v none = none ∨ v = some (some "-1")) : parseCount v = some 0 := by
  rcases h with h | rfl
  · rw [parseCount, h]
  · rfl

theorem parseCount_nonneg {v : Option (Option String)} {k : Int}
    (hsrc : nonNegCountSrc v) (h : parseCount v = some k) : 0 ≤ k := by
  rw [parseCount] at h
  cases hd : dictGet v none with
  | none => rw [hd] at h; cases h; exact le_refl 0
  | some s =>
      rw [hd] at h
      have h' : (if (s == "-1") = true then some 0 else pyInt s) = some k := h
      by_cases hs : (s == "-1") = true
      · rw [if_pos hs] at h'; cases h'; exact le_refl 0
      · rw [if_neg hs] at h'
        have hv : v = some (some s) := by
          cases v with
          | none => simp [dictGet] at hd
          | some t => rw [dictGet] at hd; rw [hd]
        exact hsrc s k hv (by simpa using hs) h'

theorem kept_truthy {resp : Except Unit XmlElem} {v : VoteData}
    (hv : v ∈ fetch_voteringer_for_sak resp) : truthyEntry v.votering_id = true := by
  cases resp with
  | error u => cases hv
  | ok root =>
      rw [fetch_voteringer_for_sak] at hv
      exact (List.mem_filter.mp hv).2

/-- C1: for every coarse record processed by the enriched pipeline, the
normalized timestamp is the authoritative detail timestamp when the detail
fetch returned a non-null one, else the record's own nominal timestamp when
present and non-empty, else the wall clock (`specTimestamp` transcribes this
rule from the specification); and every kept coarse record — timestamp
resolvable or not — contributes a record to the final output.  The hypothesis
`det.dato_tid ≠ some ""` always holds for real fetches: `ElementTree` never
yields the empty string as element text (an empty element has text `None`). -/
theorem C1_timestamp_resolution :
    (∀ (vote : VoteData) (tit : Option String) (det : DetailResult) (now : String)
        (obj : VoteObj), det.dato_tid ≠ some "" →
        makeVoteObj vote tit det now = some obj →
        obj.tid = specTimestamp vote det now)
    ∧ (∀ (env : Env) (year : Nat) (now : String) (out : List VoteObj),
        fetch_all_votes env year now = some out →
        ∀ s ∈ fetch_all_sessions_since_2022 year,
          ∀ sk ∈ fetch_saker_from_session (env.sakerResp s),
            ∀ v ∈ fetch_voteringer_for_sak (env.voteringerResp sk),
              ∃ obj ∈ out, processVote env now v = some obj) := by
  constructor
  · intro vote tit det now obj hd h
    rcases makeVoteObj_inv h with ⟨f, m, v, hf, hm, hv, rfl⟩
    cases hdt : det.dato_tid with
    | some s =>
        have hs : ¬ s = "" := fun e => hd (by rw [hdt, e])
        simp [specTimestamp, hdt, pyTruthy, hs]
    | none =>
        cases hn : dictGet vote.votering_tid (some "") with
        | none => simp [specTimestamp, hdt, hn, pyTruthy]
        | some t =>
            by_cases ht : t = ""
            · subst ht
              simp [specTimestamp, hdt, hn, pyTruthy]
            · simp [specTimestamp, hdt, hn, pyTruthy, ht]
  · intro env year now out h
    exact pipeline_mem h

/-- Witness for C1 at a concrete record with no timestamp from either source:
the output timestamp is the wall-clock value, as `specTimestamp` demands. -/
theorem C1_timestamp_resolution_witness :
    makeVoteObj vdOnlyId none noDetail "NOW" = some objOnlyId
    ∧ objOnlyId.tid = specTimestamp vdOnlyId noDetail "NOW" :=
  ⟨by decide,
   C1_timestamp_resolution.1 vdOnlyId none noDetail "NOW" objOnlyId (by decide) (by decide)⟩

/-- C2 (amended): the final output is timestamp-descending under Python's
lexicographic string comparison (`tidGe A B` is `A.tid ≥ B.tid`), and the sort
is stable: records with equal timestamps keep their original discovery order
(the earliest-discovered first).  The claim's tie-break — most-recently-
discovered first — is refuted by `C2_sort_counterexample`. -/
theorem C2_sorted_descending_stable :
    (∀ (env : Env) (year : Nat) (now : String) (out : List VoteObj),
        fetch_all_votes env year now = some out → List.Chain' tidGe out)
    ∧ (∀ (l : List VoteObj) (t : String),
        (sortVotes l).filter (fun x => x.tid == t) = l.filter (fun x => x.tid == t)) := by
  constructor
  · intro env year now out h
    rcases fetch_all_votes_inv h with ⟨L, _, rfl⟩
    exact sortVotes_chain' L.join
  · intro l t
    exact sortVotes_filter t l

/-- Counterexample to C2 as stated: two records with equal timestamps,
`"v1"` discovered before `"v2"`; the output keeps `"v1"` first, whereas the
claim demands the most-recently-discovered `"v2"` first.  (Python's
`list.sort(reverse=True)` is stable: equal keys keep original order.) -/
theorem C2_sort_counterexample :
    (fetch_all_votes envTie 2021 "T0").map (fun l => l.map VoteObj.id)
      = some [some "v1", some "v2"]
    ∧ (fetch_all_votes envTie 2021 "T0").map (fun l => l.map VoteObj.tid)
      = some ["2024-05-01T10:00:00", "2024-05-01T10:00:00"] := by
  exact ⟨by decide, by decide⟩

/-- Witness for C2 on a concrete two-vote run: the April vote is discovered
first but the May vote sorts first. -/
theorem C2_sorted_descending_stable_witness :
    fetch_all_votes envSort 2021 "T0" = some [objMay, objApril]
    ∧ List.Chain' tidGe [objMay, objApril] :=
  ⟨by decide,
   C2_sorted_descending_stable.1 envSort 2021 "T0" [objMay, objApril] (by decide)⟩

/-- C3 (amended): a count is normalized to 0 whenever its source entry is
absent, stores `None`, or stores the sentinel `"-1"`; and the output counts
are non-negative provided the present count strings denote no negative value
other than the sentinel (`nonNegCountSrc`).  Unconditional non-negativity —
the claim as stated — is refuted by `C3_negative_counterexample`. -/
theorem C3_count_normalization :
    ∀ (vote : VoteData) (tit : Option String) (det : DetailResult) (now : String)
      (obj : VoteObj), makeVoteObj vote tit det now = some obj →
      ((dictGet vote.antall_for none = none ∨ vote.antall_for = some (some "-1")) →
        obj.forCount = 0)
      ∧ ((dictGet vote.antall_mot none = none ∨ vote.antall_mot = some (some "-1")) →
        obj.motCount = 0)
      ∧ (nonNegCountSrc vote.antall_for → 0 ≤ obj.forCount)
      ∧ (nonNegCountSrc vote.antall_mot → 0 ≤ obj.motCount) := by
  intro vote tit det now obj h
  rcases makeVoteObj_inv h with ⟨f, m, v, hf, hm, hv, rfl⟩
  refine ⟨?_, ?_, ?_, ?_⟩
  · intro hz
    have := parseCount_zero hz
    rw [this] at hf
    cases hf
    rfl
  · intro hz
    have := parseCount_zero hz
    rw [this] at hm
    cases hm
    rfl
  · intro hsrc
    exact parseCount_nonneg hsrc hf
  · intro hsrc
    exact parseCount_nonneg hsrc hm

/-- Counterexample to C3 as stated: a coarse record whose `antall_for` text
is `"-5"` — not the `"-1"` sentinel — reaches the output with a negative
for-count. -/
theorem C3_negative_counterexample :
    (fetch_all_votes envNeg 2021 "T0").map (fun l => l.map VoteObj.forCount)
      = some [-5]
    ∧ (-5 : Int) < 0 :=
  ⟨by decide, by decide⟩

/-- Witness for C3 at a record with absent counts: both normalize to 0. -/
theorem C3_count_normalization_witness :
    objOnlyId.forCount = 0 ∧ 0 ≤ objOnlyId.motCount :=
  ⟨(C3_count_normalization vdOnlyId none noDetail "NOW" objOnlyId (by decide)).1
      (Or.inl (by decide)),
   (C3_count_normalization vdOnlyId none noDetail "NOW" objOnlyId (by decide)).2.2.2
      (fun s k hveq _ _ => nomatch hveq)⟩

/-- C4 (amended): transport, timeout and XML-parse failures are absorbed at
every fetch boundary (each fetcher maps an error response to its empty/null
default), and a run whose kept records all survive field conversion
(`RecordsParse`) completes and produces its output; a completed run with zero
records just skips persisting (no failure signal).  The claim's blanket "no
error is fatal" is refuted by `C4_fatal_counterexample`: a count conversion
error inside `fetch_all_votes` is uncaught. -/
theorem C4_errors_absorbed :
    (fetch_saker_from_session (.error ()) = []
      ∧ fetch_voteringer_for_sak (.error ()) = []
      ∧ fetch_vote_details (.error ()) = { stemmer := [], dato_tid := none }
      ∧ fetch_sak_details (.error ()) = none)
    ∧ (∀ (env : Env) (year : Nat) (now : String), RecordsParse env year →
        ∃ out, fetch_all_votes env year now = some out)
    ∧ (∀ (env : Env) (year : Nat) (now : String),
        fetch_all_votes env year now = some [] → mainRun env year now = some none) := by
  refine ⟨⟨rfl, rfl, rfl, rfl⟩, ?_, ?_⟩
  · intro env year now hp
    have h1 : (omapM (processSession env now) (fetch_all_sessions_since_2022 year)).isSome := by
      apply omapM_isSome
      intro s hs
      rw [processSession]
      have h2 : (omapM (processSak env now)
          (fetch_saker_from_session (env.sakerResp s))).isSome := by
        apply omapM_isSome
        intro sk hsk
        rw [processSak]
        apply omapM_isSome
        intro v hv
        rw [processVote]
        rcases hp s hs sk hsk v hv with ⟨ha, hb, hc⟩
        exact makeVoteObj_isSome ha hb hc
      rcases Option.isSome_iff_exists.mp h2 with ⟨L2, hL2⟩
      rw [hL2]
      rfl
    rcases Option.isSome_iff_exists.mp h1 with ⟨L, hL⟩
    exact ⟨sortVotes L.join, by rw [fetch_all_votes, hL]; rfl⟩
  · intro env year now h
    rw [mainRun, h]
    rfl

/-- Counterexample to C4 as stated: when a listing carries
`antall_for = "abc"`, the `int` conversion raises an uncaught `ValueError`
and the whole run dies without producing output. -/
theorem C4_fatal_counterexample : mainRun envAbc 2021 "T0" = none := by decide

/-- Witness for C4 on a concrete environment whose records all parse. -/
theorem C4_errors_absorbed_witness :
    ∃ out, fetch_all_votes envNeg 2021 "T0" = some out :=
  C4_errors_absorbed.2.1 envNeg 2021 "T0" (by decide)

/-- C5 (code bug): a ballot element without a `representant` child makes the
loop body read the still-unbound locals `fornavn`/`etternavn`/`parti_id`
(`NameError`), the broad handler catches it, and `fetch_vote_details` returns
an empty ballot list and a null timestamp — the ballot (and every other
ballot, and the authoritative timestamp) is dropped instead of degrading
field-by-field to defaults as the specification requires. -/
theorem C5_missing_representant_aborts_ballots :
    fetch_vote_details (.ok detailBadRoot) = { stemmer := [], dato_tid := none } := by
  decide

/-- C6 (amended): two runs over an unchanged upstream differ only in the
generation timestamp, provided every record's timestamp resolves from the
detail fetch or its nominal field (`NoClockFallback`) — otherwise the
wall-clock substitute leaks into a record, refuted in
`C6_wallclock_counterexample`. -/
theorem C6_idempotent_modulo_generation_timestamp :
    ∀ (env : Env) (year : Nat) (now1 now2 : String), NoClockFallback env year →
      fetch_all_votes env year now1 = fetch_all_votes env year now2
      ∧ (∀ d1 d2, mainRun env year now1 = some (some d1) →
          mainRun env year now2 = some (some d2) →
          d1.voteringer = d2.voteringer
          ∧ d1.antall_voteringer = d2.antall_voteringer
          ∧ d1.siste_oppdatering = now1 ∧ d2.siste_oppdatering = now2) := by
  intro env year now1 now2 hp
  have heq : fetch_all_votes env year now1 = fetch_all_votes env year now2 := by
    rw [fetch_all_votes, fetch_all_votes]
    have hsess : omapM (processSession env now1) (fetch_all_sessions_since_2022 year)
        = omapM (processSession env now2) (fetch_all_sessions_since_2022 year) := by
      apply omapM_congr
      intro s hs
      rw [processSession, processSession]
      have hsak : omapM (processSak env now1) (fetch_saker_from_session (env.sakerResp s))
          = omapM (processSak env now2) (fetch_saker_from_session (env.sakerResp s)) := by
        apply omapM_congr
        intro sk hsk
        rw [processSak, processSak]
        apply omapM_congr
        intro v hv
        rw [processVote, processVote]
        exact makeVoteObj_now_indep (hp s hs sk hsk v hv)
      rw [hsak]
    rw [hsess]
  refine ⟨heq, ?_⟩
  intro d1 d2 h1 h2
  rw [mainRun] at h1 h2
  cases hv1 : fetch_all_votes env year now1 with
  | none => rw [hv1] at h1; cases h1
  | some votes =>
      rw [hv1] at h1
      rw [heq] at hv1
      rw [hv1] at h2
      simp only [Option.map_some'] at h1 h2
      by_cases he : votes.isEmpty = true
      · rw [if_pos he] at h1
        cases h1
      · rw [if_neg he] at h1 h2
        cases h1
        cases h2
        exact ⟨rfl, rfl, rfl, rfl⟩

/-- Counterexample to C6 as stated: with one vote whose timestamp resolves
from no source, two runs over the unchanged upstream differ in the records
themselves (the wall-clock fallback is embedded in `tid`), not only in the
generation timestamp. -/
theorem C6_wallclock_counterexample :
    mainRun envNoTid 2021 "T1" = some (some (save_to_json [objNoTid "T1"] "T1"))
    ∧ mainRun envNoTid 2021 "T2" = some (some (save_to_json [objNoTid "T2"] "T2"))
    ∧ (save_to_json [objNoTid "T1"] "T1").voteringer
        ≠ (save_to_json [objNoTid "T2"] "T2").voteringer :=
  ⟨by decide, by decide, by decide⟩

/-- Witness for C6: a run whose single record carries its own nominal
timestamp is independent of the wall clock. -/
theorem C6_idempotent_witness :
    fetch_all_votes envNeg 2021 "T1" = fetch_all_votes envNeg 2021 "T2" :=
  (C6_idempotent_modulo_generation_timestamp envNeg 2021 "T1" "T2" (by decide)).1

/-- C7 (amended): a built record's decided flag is true iff the stored raw
value is a string whose (ASCII) lower-casing is `"true"`; an absent entry
(default `""`) and every other string yield false.  When the entry stores
Python `None` (empty `<vedtatt/>` element) no record is built at all —
`None.lower()` raises — refuting the claim as stated
(`C7_null_vedtatt_counterexample`). -/
theorem C7_decided_flag :
    ∀ (vote : VoteData) (tit : Option String) (det : DetailResult) (now : String)
      (obj : VoteObj), makeVoteObj vote tit det now = some obj →
      (obj.vedtatt = true ↔
        ∃ s, dictGet vote.vedtatt (some "") = some s ∧ pyLower s = "true") := by
  intro vote tit det now obj h
  rcases makeVoteObj_inv h with ⟨f, m, v, hf, hm, hv, rfl⟩
  rw [parseVedtatt] at hv
  cases hd : dictGet vote.vedtatt (some "") with
  | none => rw [hd] at hv; cases hv
  | some s =>
      rw [hd] at hv
      cases hv
      constructor
      · intro h2
        have h3 : (pyLower s == "true") = true := h2
        exact ⟨s, rfl, by simpa using h3⟩
      · rintro ⟨s', hs', hl⟩
        have hss : s' = s := (Option.some.inj hs').symm
        show (pyLower s == "true") = true
        rw [← hss, hl]
        rfl

/-- Counterexample to C7 as stated: a present-but-empty `vedtatt` element
stores `None`; the claim says it yields `false`, but the record build raises
(`None.lower()`) and produces nothing. -/
theorem C7_null_vedtatt_counterexample :
    makeVoteObj vdVedtattNull none noDetail "T" = none := by decide

/-- Witness for C7: the raw value `"TRUE"` yields a true decided flag. -/
theorem C7_decided_flag_witness :
    ∃ obj, makeVoteObj vdUpperTrue none noDetail "T" = some obj ∧ obj.vedtatt = true := by
  refine ⟨objUpperTrue, by decide, ?_⟩
  exact (C7_decided_flag vdUpperTrue none noDetail "T" objUpperTrue (by decide)).mpr
    ⟨"TRUE", by decide, by decide⟩

/-- C8: every record kept by the vote lister has a truthy (present, non-null,
non-empty) vote id, and every record of a completed run's output carries a
non-empty id string. -/
theorem C8_nonempty_vote_id :
    (∀ (resp : Except Unit XmlElem) (v : VoteData),
        v ∈ fetch_voteringer_for_sak resp → truthyEntry v.votering_id = true)
    ∧ (∀ (env : Env) (year : Nat) (now : String) (out : List VoteObj) (obj : VoteObj),
        fetch_all_votes env year now = some out → obj ∈ out →
        ∃ s, obj.id = some s ∧ s ≠ "") := by
  constructor
  · intro resp v hv
    exact kept_truthy hv
  · intro env year now out obj hout hobj
    rcases pipeline_mem_rev hout obj hobj with ⟨s, hs, sk, hsk, v, hv, hpv⟩
    rw [processVote] at hpv
    rcases makeVoteObj_inv hpv with ⟨f, m, v', hf, hm, hv', rfl⟩
    rcases truthyEntry_elim (kept_truthy hv) with ⟨s0, hveq, hs0⟩
    exact ⟨s0, by simp [hveq, dictGet], hs0⟩

/-- Witness for C8 at a concrete kept record. -/
theorem C8_nonempty_vote_id_witness :
    truthyEntry (parseVotering voteringNegXml).votering_id = true :=
  C8_nonempty_vote_id.1 (.ok voteringerNegRoot) (parseVotering voteringNegXml) (by decide)

/-- C9: the coarse record's timestamp entry is taken from the
`votering_dato_tid` element nested inside `votering_resultat` whenever that
nested element exists, and from the top-level `votering_tid` element exactly
when it does not. -/
theorem C9_nested_timestamp_preference :
    ∀ votering : XmlElem,
      (∀ resultat dato, findChild votering "votering_resultat" = some resultat →
          findChild resultat "votering_dato_tid" = some dato →
          (parseVotering votering).votering_tid = some dato.text)
      ∧ ((findChild votering "votering_resultat" = none ∨
          ∃ resultat, findChild votering "votering_resultat" = some resultat ∧
            findChild resultat "votering_dato_tid" = none) →
          (parseVotering votering).votering_tid =
            (match findChild votering "votering_tid" with
             | some e => some e.text
             | none => none)) := by
  intro votering
  constructor
  · intro resultat dato h1 h2
    simp [parseVotering, h1, h2]
  · intro h
    rcases h with h1 | ⟨resultat, h1, h2⟩
    · simp [parseVotering, h1]
    · simp [parseVotering, h1, h2]

/-- Witness for C9: the nested timestamp wins over a conflicting top-level
one. -/
theorem C9_nested_timestamp_preference_witness :
    (parseVotering voteringNestedXml).votering_tid = some (some "2024-03-03T12:00:00") :=
  (C9_nested_timestamp_preference voteringNestedXml).1
    (.mk "votering_resultat" none (xl [leafElem "votering_dato_tid" (some "2024-03-03T12:00:00")]))
    (leafElem "votering_dato_tid" (some "2024-03-03T12:00:00")) rfl rfl

/-- C10: a run that finds zero records completes without invoking the
persister — `save_to_json` is never applied, so no document is produced and
nothing on disk is touched. -/
theorem C10_no_persist_when_empty :
    ∀ (env : Env) (year : Nat) (now : String),
      fetch_all_votes env year now = some [] → mainRun env year now = some none := by
  intro env year now h
  rw [mainRun, h]
  rfl

/-- Witness for C10: an environment where every endpoint fails yields zero
records and no persisted document. -/
theorem C10_no_persist_when_empty_witness :
    mainRun envEmpty 2021 "T0" = some none :=
  C10_no_persist_when_empty envEmpty 2021 "T0" (by decide)
